import Mathlib

/-!
Shallow embedding of the kaggle-mcp server (TypeScript) core logic:
credential gating in the command executor (`src/services/kaggle.service.ts`),
result normalizers and 10-entry truncation for dataset / competition search,
download path resolution, the error classifier (`src/utils/errors.ts`,
here from the unnamed source file defining `categorizeError` / `getErrorCode`),
the dataset-reference validator (`src/utils/validation.ts`), and the
metorial-variant tool handlers (search, submit) with their timeouts.

External effects (subprocess execution, the JSON parser, the file system)
are modelled as explicit oracles and state passed through the functions;
every external invocation is recorded in a trace of (command, timeoutMs)
pairs so that "no external call is made" and "which timeout was used"
are provable statements.
-/

namespace Kaggle

/-- JavaScript runtime value as it can appear in a field of a normalized
result record: `undef`/`nullv` model `undefined`/`null`, the rest are
string, number and boolean values.  Numbers are modelled as rationals
(every JSON numeric literal of the upstream data is rational). -/
inductive JsVal where
  | undef
  | nullv
  | vstr (s : String)
  | vnum (q : ℚ)
  | vbool (b : Bool)
deriving DecidableEq

/-- JavaScript `x || d` for an optional upstream string field: the left
operand is kept when it is truthy (present and non-empty), otherwise the
default is taken.  `none` models an absent / `undefined` field. -/
def jsOrStr : Option String → String → String
  | some s, d => if s = "" then d else s
  | none,   d => d

/-- JavaScript `x || d` for an optional upstream numeric field: `0` is
falsy, so a present value `0` is replaced by the default as well. -/
def jsOrNum : Option ℚ → ℚ → ℚ
  | some q, d => if q = 0 then d else q
  | none,   d => d

/-- JavaScript `x || d` for an optional upstream boolean field. -/
def jsOrBool : Option Bool → Bool → Bool
  | some b, d => if b then b else d
  | none,   d => d

/-- Raw dataset record as parsed from the upstream `kaggle datasets list
--json` output; each field may be absent (`none`). -/
structure RawDataset where
  ref : Option String
  title : Option String
  subtitle : Option String
  downloadCount : Option ℚ
  lastUpdated : Option String
  usabilityRating : Option ℚ
deriving DecidableEq

/-- Normalized dataset record returned by `searchDatasets`
(`src/services/kaggle.service.ts`, lines 103-110).  Fields keep the
`JsVal` type so that absence of `undefined`/`null` in the output is a
statement, not a typing artifact. -/
structure DatasetRecord where
  ref : JsVal
  title : JsVal
  subtitle : JsVal
  downloadCount : JsVal
  lastUpdated : JsVal
  usabilityRating : JsVal
deriving DecidableEq

/-- Normalizer of one upstream dataset record, from
`src/services/kaggle.service.ts` lines 104-109 (the metorial-variant
server uses the identical mapping):
`ref: ds.ref || 'N/A', ..., downloadCount: ds.downloadCount || 0,
usabilityRating: ds.usabilityRating || 'N/A'`. -/
def normalizeDataset (ds : RawDataset) : DatasetRecord where
  ref := .vstr (jsOrStr ds.ref "N/A")
  title := .vstr (jsOrStr ds.title "N/A")
  subtitle := .vstr (jsOrStr ds.subtitle "N/A")
  downloadCount := .vnum (jsOrNum ds.downloadCount 0)
  lastUpdated := .vstr (jsOrStr ds.lastUpdated "N/A")
  usabilityRating :=
    match ds.usabilityRating with
    | some q => if q = 0 then .vstr "N/A" else .vnum q
    | none => .vstr "N/A"

/-- Raw competition record as parsed from `kaggle competitions list
--json` output.  `evaluationMetric` is read only by the
`get_competition_details` handler; the search normalizers ignore it. -/
structure RawCompetition where
  ref : Option String
  title : Option String
  description : Option String
  deadline : Option String
  category : Option String
  reward : Option String
  teamCount : Option ℚ
  userHasEntered : Option Bool
  evaluationMetric : Option String
deriving DecidableEq

/-- Normalized competition record returned by `searchCompetitions`
(`src/services/kaggle.service.ts`, lines 157-167). -/
structure CompetitionRecord where
  ref : JsVal
  title : JsVal
  description : JsVal
  url : JsVal
  deadline : JsVal
  category : JsVal
  reward : JsVal
  teamCount : JsVal
  userHasEntered : JsVal
deriving DecidableEq

/-- JavaScript `s.substring(0, n)`: the first `min n (length s)`
characters of `s`. -/
def jsSubstr0 (s : String) (n : Nat) : String :=
  ⟨s.data.take n⟩

/-- Normalizer of one upstream competition record, from
`src/services/kaggle.service.ts` lines 158-166.  Note the description:
`(comp.description || 'N/A').substring(0, 200) + '...'` appends the
ellipsis marker on every path, and the url is synthesized from
`comp.ref || ''`. -/
def normalizeCompetition (c : RawCompetition) : CompetitionRecord where
  ref := .vstr (jsOrStr c.ref "N/A")
  title := .vstr (jsOrStr c.title "N/A")
  description := .vstr (jsSubstr0 (jsOrStr c.description "N/A") 200 ++ "...")
  url := .vstr ("https://www.kaggle.com/competitions/" ++ jsOrStr c.ref "")
  deadline := .vstr (jsOrStr c.deadline "N/A")
  category := .vstr (jsOrStr c.category "N/A")
  reward := .vstr (jsOrStr c.reward "N/A")
  teamCount := .vnum (jsOrNum c.teamCount 0)
  userHasEntered := .vbool (jsOrBool c.userHasEntered false)

/-- JavaScript `Array.prototype.slice(0, n)`: the first `n` elements. -/
def jsSlice0 (l : List α) (n : Nat) : List α :=
  l.take n

/-- Dataset search results computed from a parsed upstream list:
`datasets.slice(0, 10).map(...)` (`kaggle.service.ts` line 103). -/
def searchDatasetsResults (l : List RawDataset) : List DatasetRecord :=
  (jsSlice0 l 10).map normalizeDataset

/-- Competition search results computed from a parsed upstream list:
`competitions.slice(0, 10).map(...)` (`kaggle.service.ts` line 157). -/
def searchCompetitionsResults (l : List RawCompetition) : List CompetitionRecord :=
  (jsSlice0 l 10).map normalizeCompetition

/-! ## Error classifier (from the errors utility module) -/

/-- Error categories of the closed taxonomy. -/
inductive ErrorCategory where
  | AUTHENTICATION
  | VALIDATION
  | COMMAND_EXECUTION
  | FILE_SYSTEM
  | NETWORK
  | UNKNOWN
deriving DecidableEq

/-- Finer-grained error codes of the closed taxonomy. -/
inductive ErrorCode where
  | MISSING_CREDENTIALS
  | INVALID_CREDENTIALS
  | INVALID_INPUT
  | COMMAND_FAILED
  | NOT_FOUND
  | ACCESS_DENIED
  | TIMEOUT
  | NETWORK_ERROR
  | FILE_NOT_FOUND
  | PERMISSION_DENIED
deriving DecidableEq

/-- ASCII lower-casing of one character, as `String.prototype.toLowerCase`
acts on the ASCII texts the classifier inspects. -/
def lowerChar (c : Char) : Char :=
  if 'A' ≤ c ∧ c ≤ 'Z' then Char.ofNat (c.toNat + 32) else c

/-- Whether `pat` is a prefix of `l` (character lists). -/
def isPrefixList : List Char → List Char → Bool
  | [], _ => true
  | _ :: _, [] => false
  | p :: ps, c :: cs => p == c && isPrefixList ps cs

/-- Whether `pat` occurs as a contiguous sublist of `l`. -/
def containsList (pat : List Char) : List Char → Bool
  | [] => pat.isEmpty
  | c :: cs => isPrefixList pat (c :: cs) || containsList pat cs

/-- JavaScript `message.toLowerCase().includes(pat)` for an
already-lowercase pattern `pat`. -/
def lowerIncludes (s pat : String) : Bool :=
  containsList pat.data (s.data.map lowerChar)

/-- Case-sensitive JavaScript `s.includes(pat)`. -/
def includesRaw (s pat : String) : Bool :=
  containsList pat.data s.data

/-- Keyword-priority error categorization, translated from
`categorizeError` (errors module, lines 41-66): the lowercase message is
scanned for the first matching keyword group, falling through to
`UNKNOWN`. -/
def categorizeError (message : String) : ErrorCategory :=
  if lowerIncludes message "credential" || lowerIncludes message "authentication" then
    .AUTHENTICATION
  else if lowerIncludes message "validation" || lowerIncludes message "invalid" then
    .VALIDATION
  else if lowerIncludes message "command" || lowerIncludes message "exec" then
    .COMMAND_EXECUTION
  else if lowerIncludes message "file" || lowerIncludes message "directory" then
    .FILE_SYSTEM
  else if lowerIncludes message "network" || lowerIncludes message "timeout" ||
      lowerIncludes message "connection" then
    .NETWORK
  else
    .UNKNOWN

/-- Code derivation from a message and its category, translated from
`getErrorCode` (errors module, lines 135-176). -/
def getErrorCode (message : String) (category : ErrorCategory) : ErrorCode :=
  match category with
  | .AUTHENTICATION =>
      if lowerIncludes message "missing" || lowerIncludes message "required" then
        .MISSING_CREDENTIALS
      else
        .INVALID_CREDENTIALS
  | .VALIDATION => .INVALID_INPUT
  | .COMMAND_EXECUTION =>
      if lowerIncludes message "404" then .NOT_FOUND
      else if lowerIncludes message "403" then .ACCESS_DENIED
      else if lowerIncludes message "timeout" then .TIMEOUT
      else .COMMAND_FAILED
  | .FILE_SYSTEM =>
      if lowerIncludes message "not found" then .FILE_NOT_FOUND
      else if lowerIncludes message "permission" then .PERMISSION_DENIED
      else .COMMAND_FAILED
  | .NETWORK => .NETWORK_ERROR
  | .UNKNOWN => .COMMAND_FAILED

/-- Full classification of a failure message: the category together with
the derived code, as `handleApiError` combines `categorizeError` and
`getErrorCode`. -/
def classifyError (message : String) : ErrorCategory × ErrorCode :=
  (categorizeError message, getErrorCode message (categorizeError message))

/-! ## Command executor (KaggleService) -/

/-- Credential store: the two opaque secrets handed to `KaggleService`
(or to the metorial server as its config). -/
structure Credentials where
  kaggleUsername : String
  kaggleKey : String
deriving DecidableEq

/-- Result value of `KaggleService.executeCommand`: `errMsg` carries the
`message` of the attached `Error` object when one is present. -/
structure CommandResult where
  success : Bool
  stdout : String
  stderr : String
  errMsg : Option String
deriving DecidableEq

/-- Outcome of one subprocess invocation, supplied by the environment:
`ok` is a zero-exit run with its two streams, `err` is a thrown exec
error whose `stdout` / `stderr` properties may be absent. -/
inductive ExecOutcome where
  | ok (stdout stderr : String)
  | err (stdout stderr : Option String) (message : String)

/-- Trace of external subprocess invocations actually performed: each
entry is the command together with the timeout (in milliseconds) passed
to `execAsync`. -/
abbrev ExecTrace := List (List String × Nat)

/-- Whitespace test for the JavaScript `trim`. -/
def wsChar (c : Char) : Bool :=
  c == ' ' || c == '\n' || c == '\t' || c == '\r'

/-- JavaScript `s.trim()`: strips leading and trailing whitespace. -/
def jsTrim (s : String) : String :=
  ⟨((s.data.dropWhile wsChar).reverse.dropWhile wsChar).reverse⟩

/-- Single timeout applied by `KaggleService.executeCommand` to every
command it runs (`src/services/kaggle.service.ts` line 46,
`timeout: 300000 // 5 minute timeout`). -/
def kaggleServiceTimeoutMs : Nat := 300000

/-- `KaggleService.executeCommand` (`src/services/kaggle.service.ts`
lines 22-63): when either credential is empty it returns a failure
result without touching the subprocess (the trace is unchanged);
otherwise it runs the command under the 300000 ms timeout and converts
a thrown exec error into a failure result with
`stdout: error.stdout || ''` and `stderr: error.stderr || error.message`. -/
def executeCommand (creds : Credentials) (command : List String)
    (world : List String → Nat → ExecOutcome) (tr : ExecTrace) :
    CommandResult × ExecTrace :=
  if creds.kaggleUsername = "" ∨ creds.kaggleKey = "" then
    ({ success := false, stdout := "", stderr := "Kaggle credentials not configured",
       errMsg := some "KAGGLE_USERNAME and KAGGLE_KEY environment variables are required" },
     tr)
  else
    match world command kaggleServiceTimeoutMs with
    | .ok o e =>
        ({ success := true, stdout := jsTrim o, stderr := jsTrim e, errMsg := none },
         tr ++ [(command, kaggleServiceTimeoutMs)])
    | .err o e msg =>
        ({ success := false, stdout := jsOrStr o "", stderr := jsOrStr e msg,
           errMsg := some msg },
         tr ++ [(command, kaggleServiceTimeoutMs)])

/-- Command built by `KaggleService.searchDatasets` (line 89). -/
def serviceSearchCmd (query : String) : List String :=
  ["kaggle", "datasets", "list", "-s", "\"" ++ query ++ "\"", "--json"]

/-- Result of the service-level dataset search, separating the three
non-throwing outcomes from the two thrown errors of the source. -/
inductive ServiceSearchResult where
  | failure (msg : String)
  | parseFailure (msg : String)
  | noResults
  | results (l : List DatasetRecord)
deriving DecidableEq

/-- `KaggleService.searchDatasets` (`src/services/kaggle.service.ts`
lines 88-114): runs the listing command through `executeCommand`,
throws on failure, returns `[]` on blank output, otherwise parses the
JSON (`parse` is the parsing oracle) and normalizes the first 10
records. -/
def serviceSearchDatasets (creds : Credentials) (query : String)
    (world : List String → Nat → ExecOutcome)
    (parse : String → Except String (List RawDataset)) (tr : ExecTrace) :
    ServiceSearchResult × ExecTrace :=
  let r := executeCommand creds (serviceSearchCmd query) world tr
  if r.1.success = false then
    (.failure ("Dataset search failed: " ++ r.1.stderr), r.2)
  else if jsTrim r.1.stdout = "" then
    (.noResults, r.2)
  else
    match parse r.1.stdout with
    | .ok ds => (.results (searchDatasetsResults ds), r.2)
    | .error m => (.parseFailure ("Failed to parse dataset search results: " ++ m), r.2)

/-! ## Download path resolution and download operations -/

/-- JavaScript `ref.split('/')` on character lists. -/
def splitSlash : List Char → List (List Char)
  | [] => [[]]
  | c :: cs =>
      if c = '/' then [] :: splitSlash cs
      else
        match splitSlash cs with
        | [] => [[c]]
        | g :: gs => (c :: g) :: gs

/-- JavaScript `ref.split('/')[1]` as interpolated into a template
string: an absent index stringifies to `"undefined"`. -/
def refNamePart (ref : String) : String :=
  match splitSlash ref.data with
  | _ :: b :: _ => ⟨b⟩
  | _ => "undefined"

/-- Effective dataset download path
(`src/services/kaggle.service.ts` line 118):
`path || './datasets/' + ref.split('/')[1]` — a falsy (absent or empty)
caller path falls back to the derived default. -/
def resolveDatasetPath (ref : String) (path : Option String) : String :=
  jsOrStr path ("./datasets/" ++ refNamePart ref)

/-- Effective competition download path
(`src/services/kaggle.service.ts` line 175):
`path || './competitions/' + id`. -/
def resolveCompetitionPath (id : String) (path : Option String) : String :=
  jsOrStr path ("./competitions/" ++ id)

/-- Result shape of the service download operations. -/
structure DownloadResult where
  success : Bool
  downloadPath : String
  downloadedFiles : List String
  fileCount : Nat
  error : Option String
deriving DecidableEq

/-- `KaggleService.downloadDataset` (`src/services/kaggle.service.ts`
lines 116-140): resolves the path, runs the download command, and maps
the command result onto a `DownloadResult` (file enumeration is a stub
returning `[]`). -/
def serviceDownloadDataset (creds : Credentials) (ref : String) (path : Option String)
    (world : List String → Nat → ExecOutcome) (tr : ExecTrace) :
    DownloadResult × ExecTrace :=
  let downloadPath := resolveDatasetPath ref path
  let r := executeCommand creds
    ["kaggle", "datasets", "download", ref, "-p", downloadPath, "--unzip"] world tr
  if r.1.success = false then
    ({ success := false, downloadPath := downloadPath, downloadedFiles := [],
       fileCount := 0, error := some (jsOrStr (some r.1.stderr) "Download failed") }, r.2)
  else
    ({ success := true, downloadPath := downloadPath, downloadedFiles := [],
       fileCount := 0, error := none }, r.2)

/-! ## Input validation (zod schemas) -/

/-- Character class `[\w\-\.]` of the dataset-reference regex: word
characters (ASCII letters, digits, underscore), hyphen, and dot. -/
def refChar (c : Char) : Bool :=
  decide (('a' ≤ c ∧ c ≤ 'z') ∨ ('A' ≤ c ∧ c ≤ 'Z') ∨ ('0' ≤ c ∧ c ≤ '9') ∨
    c = '_' ∨ c = '-' ∨ c = '.')

/-- Match of the zod regex `^[\w\-\.]+\/[\w\-\.]+$` from
`DatasetDownloadSchema` (`src/utils/validation.ts` lines 8-12): exactly
one slash separating two non-empty runs of allowed characters. -/
def refMatches (s : String) : Bool :=
  match splitSlash s.data with
  | [a, b] => !a.isEmpty && !b.isEmpty && a.all refChar && b.all refChar
  | _ => false

/-- Full `DatasetDownloadSchema` check on `dataset_ref`: the regex plus
the `min(3)` / `max(100)` length bounds. -/
def validateDatasetDownload (ref : String) : Bool :=
  refMatches ref && decide (3 ≤ ref.length) && decide (ref.length ≤ 100)

/-- Outcome of a tool handler call, separating a schema rejection (the
handler catches the zod parse error and returns an error payload built
from it) from execution errors and from success. -/
inductive ToolOutcome where
  | validationError (msg : String)
  | errorOut (msg : String)
  | ok (msg : String)
deriving DecidableEq

/-- The `download_kaggle_dataset` handler of the dataset tools module:
`validateDatasetDownload` runs first and its zod rejection is returned
without invoking the service; otherwise `KaggleService.downloadDataset`
runs and its failure or success is reported. -/
def downloadDatasetTool (creds : Credentials) (ref : String) (path : Option String)
    (world : List String → Nat → ExecOutcome) (tr : ExecTrace) :
    ToolOutcome × ExecTrace :=
  if validateDatasetDownload ref = false then
    (.validationError "Dataset reference must be in format username/dataset-name", tr)
  else
    let r := serviceDownloadDataset creds ref path world tr
    if r.1.success = false then
      (.errorOut (jsOrStr r.1.error "Download failed"), r.2)
    else
      (.ok ("Successfully downloaded dataset " ++ ref), r.2)

/-! ## Metorial-variant handlers (single-string commands) -/

/-- Trace of the metorial-variant exec calls: (command string, timeout). -/
abbrev MTrace := List (String × Nat)

/-- Outcome of one metorial-variant `execAsync` call: a zero-exit run or
a thrown error with its message. -/
inductive MExecOutcome where
  | ok (stdout stderr : String)
  | throwErr (message : String)

/-- Result shape of a metorial tool handler. -/
inductive MetorialResult where
  | credsError (msg : String)
  | errorOut (msg : String)
  | noResults (msg : String)
  | results (message : String) (l : List DatasetRecord)
deriving DecidableEq

/-- Command string built by the metorial `search_kaggle_datasets`
handler (line 66 of the metorial server source). -/
def metorialSearchDatasetsCmd (query : String) : String :=
  "kaggle datasets list -s \"" ++ query ++ "\" --json"

/-- Timeout of the metorial search handlers (line 71: `timeout: 60000`). -/
def metorialSearchTimeoutMs : Nat := 60000

/-- Metorial `search_kaggle_datasets` handler (metorial server source,
lines 38-127): credential gate, one exec call under the 60000 ms
timeout, a throw when stderr is non-empty and contains `error`, a
no-results payload on blank stdout, otherwise parse and normalize the
first 10 records. -/
def metorialSearchDatasets (cfg : Credentials) (query : String)
    (world : String → Nat → MExecOutcome)
    (parse : String → Except String (List RawDataset)) (tr : MTrace) :
    MetorialResult × MTrace :=
  if cfg.kaggleUsername = "" ∨ cfg.kaggleKey = "" then
    (.credsError "Kaggle credentials not configured. Please set kaggleUsername and kaggleKey.",
     tr)
  else
    match world (metorialSearchDatasetsCmd query) metorialSearchTimeoutMs with
    | .throwErr m =>
        (.errorOut ("Error searching datasets: " ++ m),
         tr ++ [(metorialSearchDatasetsCmd query, metorialSearchTimeoutMs)])
    | .ok o e =>
        if e ≠ "" ∧ includesRaw e "error" = true then
          (.errorOut ("Error searching datasets: " ++ e),
           tr ++ [(metorialSearchDatasetsCmd query, metorialSearchTimeoutMs)])
        else if jsTrim o = "" then
          (.noResults "No datasets found matching the query.",
           tr ++ [(metorialSearchDatasetsCmd query, metorialSearchTimeoutMs)])
        else
          match parse o with
          | .ok ds =>
              (.results ("Found " ++ toString (searchDatasetsResults ds).length ++ " datasets")
                 (searchDatasetsResults ds),
               tr ++ [(metorialSearchDatasetsCmd query, metorialSearchTimeoutMs)])
          | .error m =>
              (.errorOut ("Error searching datasets: " ++ m),
               tr ++ [(metorialSearchDatasetsCmd query, metorialSearchTimeoutMs)])

/-! ## Metorial submit handler with its temporary artifact -/

/-- Directory for temporary submission files (line 622 of the metorial
server source). -/
def tempDir : String := "./temp_submissions"

/-- Temporary file path for a submission. -/
def tempFilePathFor (filename : String) : String :=
  tempDir ++ "/" ++ filename

/-- Timeout of the submit handler (line 634: `timeout: 120000`). -/
def submitTimeoutMs : Nat := 120000

/-- Command string built by the submit handler (line 629). -/
def submitCmd (competition_id filename : String) (message : Option String) : String :=
  "kaggle competitions submit " ++ competition_id ++ " -f " ++ tempFilePathFor filename ++
    " -m \"" ++ jsOrStr message "Submission via ML Engineer Agent" ++ "\""

/-- Result shape of the submit handler. -/
inductive SubmitResult where
  | credsError (msg : String)
  | errorOut (msg : String)
  | ok (competition_id filename message stdout stderr : String)
deriving DecidableEq

/-- File system modelled as the list of (path, content) files present. -/
abbrev FileSys := List (String × String)

/-- JavaScript `unlink(path)`: removes any file at `path`; removing an
absent path is a no-op (the handler swallows cleanup errors). -/
def unlinkFile (fs : FileSys) (path : String) : FileSys :=
  fs.filter (fun e => !(e.1 == path))

/-- Whether a file exists at `path`. -/
def fileExists (fs : FileSys) (path : String) : Bool :=
  fs.any (fun e => e.1 == path)

/-- Metorial `submit_to_competition` handler (metorial server source,
lines 592-674).  The handler writes `file_content` to
`./temp_submissions/<filename>`, runs the submit command under the
120000 ms timeout, and unlinks the temporary file after a successful
run (cleanup errors are swallowed).  When the submit command throws,
control jumps to the catch block, which returns an error payload
without unlinking: the `throwErr` branch below leaves the file in the
returned file system. -/
def submitToCompetition (cfg : Credentials)
    (competition_id file_content filename : String) (message : Option String)
    (world : String → Nat → MExecOutcome) (fs : FileSys) (tr : MTrace) :
    SubmitResult × FileSys × MTrace :=
  if cfg.kaggleUsername = "" ∨ cfg.kaggleKey = "" then
    (.credsError "Kaggle credentials not configured. Please set kaggleUsername and kaggleKey.",
     fs, tr)
  else
    match world (submitCmd competition_id filename message) submitTimeoutMs with
    | .throwErr m =>
        (.errorOut ("Error submitting to competition: " ++ m),
         (tempFilePathFor filename, file_content) :: fs,
         tr ++ [(submitCmd competition_id filename message, submitTimeoutMs)])
    | .ok o e =>
        (.ok competition_id filename (jsOrStr message "Submission via ML Engineer Agent") o e,
         unlinkFile ((tempFilePathFor filename, file_content) :: fs) (tempFilePathFor filename),
         tr ++ [(submitCmd competition_id filename message, submitTimeoutMs)])

/-! ## Metorial download, competition search and details handlers -/

/-- Timeout of both metorial download handlers (lines 180 and 511:
`timeout: 300000`). -/
def metorialDownloadTimeoutMs : Nat := 300000

/-- Command string built by the metorial `download_kaggle_dataset`
handler (line 175). -/
def metorialDownloadDatasetCmd (dataset_ref downloadPath : String) : String :=
  "kaggle datasets download " ++ dataset_ref ++ " -p " ++ downloadPath ++ " --unzip"

/-- Result shape of the metorial dataset download handler. -/
inductive MDownloadResult where
  | credsError (msg : String)
  | notFound (msg : String)
  | errorOut (msg : String)
  | ok (dataset_ref downloadPath stdout stderr : String)
deriving DecidableEq

/-- Metorial `download_kaggle_dataset` handler (metorial server source,
lines 134-227): credential gate, path resolution via
`download_path || ./datasets/<name-part>`, one exec call under the
300000 ms timeout; a thrown error whose message contains "404" becomes
a not-found payload, any other throw an error payload. -/
def metorialDownloadDataset (cfg : Credentials) (dataset_ref : String)
    (download_path : Option String) (world : String → Nat → MExecOutcome) (tr : MTrace) :
    MDownloadResult × MTrace :=
  if cfg.kaggleUsername = "" ∨ cfg.kaggleKey = "" then
    (.credsError "Kaggle credentials not configured. Please set kaggleUsername and kaggleKey.",
     tr)
  else
    match world (metorialDownloadDatasetCmd dataset_ref (resolveDatasetPath dataset_ref download_path))
        metorialDownloadTimeoutMs with
    | .ok o e =>
        (.ok dataset_ref (resolveDatasetPath dataset_ref download_path) o e,
         tr ++ [(metorialDownloadDatasetCmd dataset_ref (resolveDatasetPath dataset_ref download_path),
           metorialDownloadTimeoutMs)])
    | .throwErr m =>
        if includesRaw m "404" = true then
          (.notFound ("Dataset " ++ dataset_ref ++ " not found or access denied."),
           tr ++ [(metorialDownloadDatasetCmd dataset_ref (resolveDatasetPath dataset_ref download_path),
             metorialDownloadTimeoutMs)])
        else
          (.errorOut ("Error downloading dataset: " ++ m),
           tr ++ [(metorialDownloadDatasetCmd dataset_ref (resolveDatasetPath dataset_ref download_path),
             metorialDownloadTimeoutMs)])

/-- Normalized competition record of the metorial competition search
(lines 301-310): identical to the service normalizer except that no
`userHasEntered` field is emitted. -/
structure MCompetitionRecord where
  ref : JsVal
  title : JsVal
  description : JsVal
  url : JsVal
  deadline : JsVal
  category : JsVal
  reward : JsVal
  teamCount : JsVal
deriving DecidableEq

/-- Normalizer of one upstream competition record in the metorial
competition search handler (lines 302-309). -/
def normalizeCompetitionM (c : RawCompetition) : MCompetitionRecord where
  ref := .vstr (jsOrStr c.ref "N/A")
  title := .vstr (jsOrStr c.title "N/A")
  description := .vstr (jsSubstr0 (jsOrStr c.description "N/A") 200 ++ "...")
  url := .vstr ("https://www.kaggle.com/competitions/" ++ jsOrStr c.ref "")
  deadline := .vstr (jsOrStr c.deadline "N/A")
  category := .vstr (jsOrStr c.category "N/A")
  reward := .vstr (jsOrStr c.reward "N/A")
  teamCount := .vnum (jsOrNum c.teamCount 0)

/-- Competition search results of the metorial handler:
`competitions.slice(0, 10).map(...)` (line 301). -/
def searchCompetitionsResultsM (l : List RawCompetition) : List MCompetitionRecord :=
  (jsSlice0 l 10).map normalizeCompetitionM

/-- Command string built by the metorial `search_kaggle_competitions`
handler (lines 271-274): the `-s` form is used only when the query is
truthy with non-blank trim, otherwise the plain listing. -/
def metorialSearchCompetitionsCmd (query : String) : String :=
  if query ≠ "" ∧ jsTrim query ≠ "" then
    "kaggle competitions list -s \"" ++ query ++ "\" --json"
  else
    "kaggle competitions list --json"

/-- Result shape of the metorial competition search handler. -/
inductive MCompSearchResult where
  | credsError (msg : String)
  | errorOut (msg : String)
  | noResults (msg : String)
  | results (message : String) (l : List MCompetitionRecord)
deriving DecidableEq

/-- Metorial `search_kaggle_competitions` handler (metorial server
source, lines 233-338): credential gate, one exec call under the
60000 ms timeout, stderr-error throw, no-results payload on blank
stdout, otherwise parse and normalize the first 10 records. -/
def metorialSearchCompetitions (cfg : Credentials) (query : String)
    (world : String → Nat → MExecOutcome)
    (parse : String → Except String (List RawCompetition)) (tr : MTrace) :
    MCompSearchResult × MTrace :=
  if cfg.kaggleUsername = "" ∨ cfg.kaggleKey = "" then
    (.credsError "Kaggle credentials not configured. Please set kaggleUsername and kaggleKey.",
     tr)
  else
    match world (metorialSearchCompetitionsCmd query) metorialSearchTimeoutMs with
    | .throwErr m =>
        (.errorOut ("Error searching competitions: " ++ m),
         tr ++ [(metorialSearchCompetitionsCmd query, metorialSearchTimeoutMs)])
    | .ok o e =>
        if e ≠ "" ∧ includesRaw e "error" = true then
          (.errorOut ("Error searching competitions: " ++ e),
           tr ++ [(metorialSearchCompetitionsCmd query, metorialSearchTimeoutMs)])
        else if jsTrim o = "" then
          (.noResults "No competitions found matching the query.",
           tr ++ [(metorialSearchCompetitionsCmd query, metorialSearchTimeoutMs)])
        else
          match parse o with
          | .ok cs =>
              (.results
                 ("Found " ++ toString (searchCompetitionsResultsM cs).length ++ " competitions")
                 (searchCompetitionsResultsM cs),
               tr ++ [(metorialSearchCompetitionsCmd query, metorialSearchTimeoutMs)])
          | .error m =>
              (.errorOut ("Error searching competitions: " ++ m),
               tr ++ [(metorialSearchCompetitionsCmd query, metorialSearchTimeoutMs)])

/-- Command string built by the metorial `get_competition_details`
handler (line 382). -/
def metorialCompetitionDetailsCmd (competition_id : String) : String :=
  "kaggle competitions list -s \"" ++ competition_id ++ "\" --json"

/-- JavaScript `competitions.find(c => c.ref === id || c.ref?.includes(id))
|| competitions[0]` of the details handler (lines 408-410): the first
matching record, else the first record, else absent on an empty list. -/
def findCompetition (competition_id : String) (l : List RawCompetition) :
    Option RawCompetition :=
  match l.find? (fun comp =>
      comp.ref == some competition_id ||
      (match comp.ref with
       | some r => includesRaw r competition_id
       | none => false)) with
  | some c => some c
  | none => l.head?

/-- Result shape of the details handler: the `details` constructor
carries the flattened detail object of lines 425-436. -/
inductive MCompDetails where
  | credsError (msg : String)
  | errorOut (msg : String)
  | notFound (msg : String)
  | details (id : String)
      (title description evaluation_metric deadline category reward team_count
        user_has_entered url : JsVal)
deriving DecidableEq

/-- Metorial `get_competition_details` handler (metorial server source,
lines 344-461): credential gate, one listing call under the 60000 ms
timeout, stderr-error throw, not-found on blank stdout or an empty
parsed list, otherwise the flattened detail object of the found record
(description not truncated here, url synthesized from the id). -/
def metorialGetCompetitionDetails (cfg : Credentials) (competition_id : String)
    (world : String → Nat → MExecOutcome)
    (parse : String → Except String (List RawCompetition)) (tr : MTrace) :
    MCompDetails × MTrace :=
  if cfg.kaggleUsername = "" ∨ cfg.kaggleKey = "" then
    (.credsError "Kaggle credentials not configured. Please set kaggleUsername and kaggleKey.",
     tr)
  else
    match world (metorialCompetitionDetailsCmd competition_id) metorialSearchTimeoutMs with
    | .throwErr m =>
        (.errorOut ("Error getting competition details: " ++ m),
         tr ++ [(metorialCompetitionDetailsCmd competition_id, metorialSearchTimeoutMs)])
    | .ok o e =>
        if e ≠ "" ∧ includesRaw e "error" = true then
          (.errorOut ("Error getting competition details: " ++ e),
           tr ++ [(metorialCompetitionDetailsCmd competition_id, metorialSearchTimeoutMs)])
        else if jsTrim o = "" then
          (.notFound ("Competition " ++ competition_id ++ " not found"),
           tr ++ [(metorialCompetitionDetailsCmd competition_id, metorialSearchTimeoutMs)])
        else
          match parse o with
          | .error m =>
              (.errorOut ("Error getting competition details: " ++ m),
               tr ++ [(metorialCompetitionDetailsCmd competition_id, metorialSearchTimeoutMs)])
          | .ok cs =>
              match findCompetition competition_id cs with
              | none =>
                  (.notFound ("Competition " ++ competition_id ++ " not found"),
                   tr ++ [(metorialCompetitionDetailsCmd competition_id, metorialSearchTimeoutMs)])
              | some comp =>
                  (.details competition_id
                     (.vstr (jsOrStr comp.title "N/A"))
                     (.vstr (jsOrStr comp.description "N/A"))
                     (.vstr (jsOrStr comp.evaluationMetric "N/A"))
                     (.vstr (jsOrStr comp.deadline "N/A"))
                     (.vstr (jsOrStr comp.category "N/A"))
                     (.vstr (jsOrStr comp.reward "N/A"))
                     (.vnum (jsOrNum comp.teamCount 0))
                     (.vbool (jsOrBool comp.userHasEntered false))
                     (.vstr ("https://www.kaggle.com/competitions/" ++ competition_id)),
                   tr ++ [(metorialCompetitionDetailsCmd competition_id, metorialSearchTimeoutMs)])

/-- Command string built by the metorial `download_competition_data`
handler (line 506). -/
def metorialDownloadCompetitionCmd (competition_id downloadPath : String) : String :=
  "kaggle competitions download " ++ competition_id ++ " -p " ++ downloadPath

/-- File-enumeration command run after a successful competition
download (line 515). -/
def enumerationCmd (downloadPath : String) : String :=
  "find " ++ downloadPath ++
    " -type f -name \"*.csv\" -o -name \"*.zip\" -o -name \"*.txt\" | head -20"

/-- Timeout of the file-enumeration call (line 518: `timeout: 10000`). -/
def enumerationTimeoutMs : Nat := 10000

/-- JavaScript `s.split('\n')` on character lists. -/
def splitNewline : List Char → List (List Char)
  | [] => [[]]
  | c :: cs =>
      if c = '\n' then [] :: splitNewline cs
      else
        match splitNewline cs with
        | [] => [[c]]
        | g :: gs => (c :: g) :: gs

/-- File list parsed from the enumeration output (line 519):
`listOutput.trim().split('\n').filter(f => f.trim())`. -/
def parseFileList (listOutput : String) : List String :=
  ((splitNewline (jsTrim listOutput).data).map (fun l => (⟨l⟩ : String))).filter
    (fun f => jsTrim f ≠ "")

/-- Result shape of the metorial competition download handler. -/
inductive MCompDownloadResult where
  | credsError (msg : String)
  | accessDenied (msg : String)
  | errorOut (msg : String)
  | ok (competition_id downloadPath : String) (files : List String) (fileCount : Nat)
      (stdout stderr : String)
deriving DecidableEq

/-- Metorial `download_competition_data` handler (metorial server
source, lines 467-574): credential gate, the download call under the
300000 ms timeout, then — only after a successful download — the
best-effort file enumeration under the 10000 ms timeout, whose failure
is swallowed into an empty file list.  A thrown download error whose
message contains "403" or "Forbidden" becomes an access-denied
payload. -/
def metorialDownloadCompetition (cfg : Credentials) (competition_id : String)
    (download_path : Option String) (world : String → Nat → MExecOutcome) (tr : MTrace) :
    MCompDownloadResult × MTrace :=
  if cfg.kaggleUsername = "" ∨ cfg.kaggleKey = "" then
    (.credsError "Kaggle credentials not configured. Please set kaggleUsername and kaggleKey.",
     tr)
  else
    match world (metorialDownloadCompetitionCmd competition_id
        (resolveCompetitionPath competition_id download_path)) metorialDownloadTimeoutMs with
    | .throwErr m =>
        if includesRaw m "403" = true ∨ includesRaw m "Forbidden" = true then
          (.accessDenied ("Access denied for competition " ++ competition_id ++
             ". You may need to accept the competition rules first."),
           tr ++ [(metorialDownloadCompetitionCmd competition_id
             (resolveCompetitionPath competition_id download_path), metorialDownloadTimeoutMs)])
        else
          (.errorOut ("Error downloading competition data: " ++ m),
           tr ++ [(metorialDownloadCompetitionCmd competition_id
             (resolveCompetitionPath competition_id download_path), metorialDownloadTimeoutMs)])
    | .ok o e =>
        match world (enumerationCmd (resolveCompetitionPath competition_id download_path))
            enumerationTimeoutMs with
        | .ok lo _ =>
            (.ok competition_id (resolveCompetitionPath competition_id download_path)
               (parseFileList lo) (parseFileList lo).length o e,
             tr ++ [(metorialDownloadCompetitionCmd competition_id
                 (resolveCompetitionPath competition_id download_path), metorialDownloadTimeoutMs),
               (enumerationCmd (resolveCompetitionPath competition_id download_path),
                 enumerationTimeoutMs)])
        | .throwErr _ =>
            (.ok competition_id (resolveCompetitionPath competition_id download_path) [] 0 o e,
             tr ++ [(metorialDownloadCompetitionCmd competition_id
                 (resolveCompetitionPath competition_id download_path), metorialDownloadTimeoutMs),
               (enumerationCmd (resolveCompetitionPath competition_id download_path),
                 enumerationTimeoutMs)])

/-! ## Concrete sample inputs used by the witnesses -/

/-- Upstream dataset record with every field absent. -/
def sampleRawDataset : RawDataset :=
  ⟨none, none, none, none, none, none⟩

/-- Upstream competition record with every field absent. -/
def sampleRawCompetition : RawCompetition :=
  ⟨none, none, none, none, none, none, none, none, none⟩

/-- Synthetic upstream dataset list with more than 10 entries. -/
def sampleDatasets : List RawDataset :=
  List.replicate 12 sampleRawDataset

/-- Synthetic upstream competition list with more than 10 entries. -/
def sampleCompetitions : List RawCompetition :=
  List.replicate 12 sampleRawCompetition

/-- Short competition description (well under 200 characters). -/
def sampleDescription : String :=
  "Predict survival outcomes for Titanic passengers."

/-- Upstream competition record carrying the short description. -/
def sampleComp : RawCompetition :=
  ⟨some "titanic", some "Titanic", some sampleDescription, none, none, none, none, none, none⟩

/-- Upstream dataset record with falsy-but-present fields: an empty
title and a usability rating of 0. -/
def sampleFalsyDataset : RawDataset :=
  ⟨some "owner/data", some "", none, some 5, none, some 0⟩

/-! ## Claim C1 -/

/-- C1 counterexample: with unconfigured credentials the executor does
return a failure without any external call (the trace stays empty), but
its failure text "Kaggle credentials not configured" is classified by
the error module as Authentication with code INVALID_CREDENTIALS — not
MISSING_CREDENTIALS, since the text contains neither "missing" nor
"required" — and the attached Error message (which does contain
"required") categorizes as UNKNOWN, coded COMMAND_FAILED. -/
theorem executor_missing_creds_coded_invalid :
    (executeCommand ⟨"", ""⟩ ["kaggle", "datasets", "list"] (fun _ _ => .ok "" "") []).1.stderr =
      "Kaggle credentials not configured" ∧
    (executeCommand ⟨"", ""⟩ ["kaggle", "datasets", "list"] (fun _ _ => .ok "" "") []).2 = [] ∧
    classifyError "Kaggle credentials not configured" =
      (.AUTHENTICATION, .INVALID_CREDENTIALS) ∧
    getErrorCode "Kaggle credentials not configured" .AUTHENTICATION ≠
      ErrorCode.MISSING_CREDENTIALS ∧
    classifyError "KAGGLE_USERNAME and KAGGLE_KEY environment variables are required" =
      (.UNKNOWN, .COMMAND_FAILED) := by
  refine ⟨rfl, rfl, by decide, by decide, by decide⟩

/-- C1 (amended): whenever either credential is empty, every executor
invocation returns the fixed failure result — success=false, the
"Kaggle credentials not configured" text — without performing any
external call (the invocation trace is returned unchanged), and that
failure text is classified as an Authentication failure with code
INVALID_CREDENTIALS. -/
theorem executor_unconfigured_rejects_without_call (creds : Credentials)
    (cmd : List String) (world : List String → Nat → ExecOutcome) (tr : ExecTrace)
    (h : creds.kaggleUsername = "" ∨ creds.kaggleKey = "") :
    executeCommand creds cmd world tr =
      ({ success := false, stdout := "", stderr := "Kaggle credentials not configured",
         errMsg := some "KAGGLE_USERNAME and KAGGLE_KEY environment variables are required" },
       tr) ∧
    classifyError "Kaggle credentials not configured" =
      (.AUTHENTICATION, .INVALID_CREDENTIALS) := by
  refine ⟨?_, by decide⟩
  unfold executeCommand
  rw [if_pos h]

/-- C1 witness: the amended statement evaluated with an empty username. -/
theorem executor_unconfigured_rejects_without_call_witness :
    executeCommand ⟨"", "some-key"⟩ ["kaggle", "datasets", "list"] (fun _ _ => .ok "" "") [] =
      ({ success := false, stdout := "", stderr := "Kaggle credentials not configured",
         errMsg := some "KAGGLE_USERNAME and KAGGLE_KEY environment variables are required" },
       []) ∧
    classifyError "Kaggle credentials not configured" =
      (.AUTHENTICATION, .INVALID_CREDENTIALS) :=
  executor_unconfigured_rejects_without_call ⟨"", "some-key"⟩ ["kaggle", "datasets", "list"]
    (fun _ _ => .ok "" "") [] (Or.inl rfl)

/-! ## Claim C2 -/

/-- C2: both search normalizers return exactly the first
`min n 10` upstream records, normalized in upstream order. -/
theorem search_results_first_ten (ld : List RawDataset) (lc : List RawCompetition) :
    (searchDatasetsResults ld).length = min ld.length 10 ∧
    (searchCompetitionsResults lc).length = min lc.length 10 ∧
    (∀ i (h1 : i < (searchDatasetsResults ld).length) (h2 : i < ld.length),
      (searchDatasetsResults ld).get ⟨i, h1⟩ = normalizeDataset (ld.get ⟨i, h2⟩)) ∧
    (∀ i (h1 : i < (searchCompetitionsResults lc).length) (h2 : i < lc.length),
      (searchCompetitionsResults lc).get ⟨i, h1⟩ = normalizeCompetition (lc.get ⟨i, h2⟩)) := by
  refine ⟨?_, ?_, ?_, ?_⟩
  · simp [searchDatasetsResults, jsSlice0, Nat.min_comm]
  · simp [searchCompetitionsResults, jsSlice0, Nat.min_comm]
  · intro i h1 h2
    simp [searchDatasetsResults, jsSlice0, List.getElem_take]
  · intro i h1 h2
    simp [searchCompetitionsResults, jsSlice0, List.getElem_take]

/-- C2 witness: on a synthetic 12-entry upstream list the output has
length 10 and entry 9 is the normalization of upstream entry 9. -/
theorem search_results_first_ten_witness :
    (searchDatasetsResults sampleDatasets).length = min sampleDatasets.length 10 ∧
    (searchCompetitionsResults sampleCompetitions).length = min sampleCompetitions.length 10 ∧
    (searchDatasetsResults sampleDatasets).get ⟨9, by decide⟩ =
      normalizeDataset (sampleDatasets.get ⟨9, by decide⟩) :=
  ⟨(search_results_first_ten sampleDatasets sampleCompetitions).1,
   (search_results_first_ten sampleDatasets sampleCompetitions).2.1,
   (search_results_first_ten sampleDatasets sampleCompetitions).2.2.1 9 (by decide) (by decide)⟩

/-! ## Claim C3 -/

/-- C3 counterexample: the failure message "403 Forbidden" contains
"403" yet classifies as UNKNOWN with code COMMAND_FAILED, because the
code-403 rule only applies inside the COMMAND_EXECUTION category,
which requires a "command" or "exec" keyword in the message. -/
theorem classify_403_alone_unknown :
    classifyError "403 Forbidden" = (.UNKNOWN, .COMMAND_FAILED) ∧
    classifyError "403 Forbidden" ≠
      ((ErrorCategory.COMMAND_EXECUTION, ErrorCode.ACCESS_DENIED)) := by
  refine ⟨by decide, by decide⟩

/-- C3 (amended): the classifier is a pure total function with
UNKNOWN/COMMAND_FAILED as the default terminus, and a message
containing "403" classifies as ExternalExecution/AccessDenied exactly
when it also carries an execution keyword ("command" or "exec"), none
of the higher-priority authentication or validation keywords, and no
"404". -/
theorem classifier_total_with_403_rule (s : String)
    (hcred : lowerIncludes s "credential" = false)
    (hauth : lowerIncludes s "authentication" = false)
    (hval : lowerIncludes s "validation" = false)
    (hinv : lowerIncludes s "invalid" = false)
    (hcmd : lowerIncludes s "command" = true ∨ lowerIncludes s "exec" = true)
    (h404 : lowerIncludes s "404" = false)
    (h403 : lowerIncludes s "403" = true) :
    classifyError s = (.COMMAND_EXECUTION, .ACCESS_DENIED) ∧
    (∀ t : String, categorizeError t = .UNKNOWN →
      classifyError t = (.UNKNOWN, .COMMAND_FAILED)) := by
  have hcat : categorizeError s = .COMMAND_EXECUTION := by
    unfold categorizeError
    rcases hcmd with h | h <;> simp [hcred, hauth, hval, hinv, h]
  refine ⟨?_, ?_⟩
  · unfold classifyError
    rw [hcat]
    unfold getErrorCode
    simp [h404, h403]
  · intro t ht
    unfold classifyError
    rw [ht]
    rfl

/-- C3 witness: the concrete message "Command failed: 403" classifies
as COMMAND_EXECUTION with code ACCESS_DENIED. -/
theorem classifier_total_with_403_rule_witness :
    classifyError "Command failed: 403" = (.COMMAND_EXECUTION, .ACCESS_DENIED) :=
  (classifier_total_with_403_rule "Command failed: 403" (by decide) (by decide) (by decide)
    (by decide) (Or.inl (by decide)) (by decide) (by decide)).1

/-! ## Claim C4 -/

/-- C4 (code_bug evaluation): the submit handler removes its temporary
file after a successful submit call, but when the submit command throws
(for example a 403 from the CLI) the catch block returns without
unlinking, so `./temp_submissions/sub.csv` is still present in the
resulting file system. -/
theorem submit_failure_leaves_temp_artifact :
    fileExists
      (submitToCompetition ⟨"user", "key"⟩ "titanic" "id,label" "sub.csv" none
        (fun _ _ => .throwErr "Command failed: 403 Forbidden") [] []).2.1
      (tempFilePathFor "sub.csv") = true ∧
    (submitToCompetition ⟨"user", "key"⟩ "titanic" "id,label" "sub.csv" none
        (fun _ _ => .throwErr "Command failed: 403 Forbidden") [] []).1 =
      .errorOut "Error submitting to competition: Command failed: 403 Forbidden" ∧
    fileExists
      (submitToCompetition ⟨"user", "key"⟩ "titanic" "id,label" "sub.csv" none
        (fun _ _ => .ok "Successfully submitted" "") [] []).2.1
      (tempFilePathFor "sub.csv") = false := by
  refine ⟨by decide, by decide, by decide⟩

/-! ## Claim C5 -/

/-- C5 counterexample: a dataset search routed through
`KaggleService.searchDatasets` performs its single external call under
the service-wide 300000 ms timeout, not a short 60000 ms one. -/
theorem service_search_uses_300s_timeout :
    (serviceSearchDatasets ⟨"user", "key"⟩ "titanic" (fun _ _ => .ok "[]" "")
        (fun _ => .ok []) []).2 =
      [(serviceSearchCmd "titanic", 300000)] ∧
    kaggleServiceTimeoutMs ≠ 60000 := by
  refine ⟨by decide, by decide⟩

/-- C5 (amended): with configured credentials, every metorial
search/listing/metadata handler — dataset search, competition search,
competition details — records exactly one external call under the
60000 ms timeout; both metorial download handlers run their download
call under the 300000 ms timeout, the competition download following
it with the best-effort file enumeration under 10000 ms; the submit
handler records exactly one call under 120000 ms; and
`KaggleService.executeCommand` runs every command — searches and
metadata lookups included — under the single 300000 ms timeout. -/
theorem timeouts_by_variant (cfg : Credentials)
    (query cquery did dref ccid scid fc fn : String)
    (dpath cpath : Option String) (msg : Option String) (cmd : List String)
    (world : String → Nat → MExecOutcome) (sworld : List String → Nat → ExecOutcome)
    (parseD : String → Except String (List RawDataset))
    (parseC : String → Except String (List RawCompetition))
    (tr : MTrace) (str : ExecTrace) (fs : FileSys)
    (hc : ¬(cfg.kaggleUsername = "" ∨ cfg.kaggleKey = "")) :
    (metorialSearchDatasets cfg query world parseD tr).2 =
      tr ++ [(metorialSearchDatasetsCmd query, 60000)] ∧
    (metorialSearchCompetitions cfg cquery world parseC tr).2 =
      tr ++ [(metorialSearchCompetitionsCmd cquery, 60000)] ∧
    (metorialGetCompetitionDetails cfg did world parseC tr).2 =
      tr ++ [(metorialCompetitionDetailsCmd did, 60000)] ∧
    (metorialDownloadDataset cfg dref dpath world tr).2 =
      tr ++ [(metorialDownloadDatasetCmd dref (resolveDatasetPath dref dpath), 300000)] ∧
    ((metorialDownloadCompetition cfg ccid cpath world tr).2 =
        tr ++ [(metorialDownloadCompetitionCmd ccid (resolveCompetitionPath ccid cpath),
          300000)] ∨
      (metorialDownloadCompetition cfg ccid cpath world tr).2 =
        tr ++ [(metorialDownloadCompetitionCmd ccid (resolveCompetitionPath ccid cpath),
            300000),
          (enumerationCmd (resolveCompetitionPath ccid cpath), 10000)]) ∧
    (submitToCompetition cfg scid fc fn msg world fs tr).2.2 =
      tr ++ [(submitCmd scid fn msg, 120000)] ∧
    (executeCommand cfg cmd sworld str).2 = str ++ [(cmd, 300000)] := by
  refine ⟨?_, ?_, ?_, ?_, ?_, ?_, ?_⟩
  · unfold metorialSearchDatasets
    rw [if_neg hc]
    cases world (metorialSearchDatasetsCmd query) metorialSearchTimeoutMs with
    | throwErr m => rfl
    | ok o e =>
      dsimp only
      by_cases h1 : e ≠ "" ∧ includesRaw e "error" = true
      · rw [if_pos h1]
        rfl
      · rw [if_neg h1]
        by_cases h2 : jsTrim o = ""
        · rw [if_pos h2]
          rfl
        · rw [if_neg h2]
          cases parseD o <;> rfl
  · unfold metorialSearchCompetitions
    rw [if_neg hc]
    cases world (metorialSearchCompetitionsCmd cquery) metorialSearchTimeoutMs with
    | throwErr m => rfl
    | ok o e =>
      dsimp only
      by_cases h1 : e ≠ "" ∧ includesRaw e "error" = true
      · rw [if_pos h1]
        rfl
      · rw [if_neg h1]
        by_cases h2 : jsTrim o = ""
        · rw [if_pos h2]
          rfl
        · rw [if_neg h2]
          cases parseC o <;> rfl
  · unfold metorialGetCompetitionDetails
    rw [if_neg hc]
    cases world (metorialCompetitionDetailsCmd did) metorialSearchTimeoutMs with
    | throwErr m => rfl
    | ok o e =>
      dsimp only
      by_cases h1 : e ≠ "" ∧ includesRaw e "error" = true
      · rw [if_pos h1]
        rfl
      · rw [if_neg h1]
        by_cases h2 : jsTrim o = ""
        · rw [if_pos h2]
          rfl
        · rw [if_neg h2]
          cases parseC o with
          | error m => rfl
          | ok cs =>
            dsimp only
            cases findCompetition did cs <;> rfl
  · unfold metorialDownloadDataset
    rw [if_neg hc]
    cases world (metorialDownloadDatasetCmd dref (resolveDatasetPath dref dpath))
        metorialDownloadTimeoutMs with
    | ok o e => rfl
    | throwErr m =>
      dsimp only
      split <;> rfl
  · unfold metorialDownloadCompetition
    rw [if_neg hc]
    cases world (metorialDownloadCompetitionCmd ccid (resolveCompetitionPath ccid cpath))
        metorialDownloadTimeoutMs with
    | throwErr m =>
      left
      dsimp only
      split <;> rfl
    | ok o e =>
      cases world (enumerationCmd (resolveCompetitionPath ccid cpath)) enumerationTimeoutMs <;>
        exact Or.inr rfl
  · unfold submitToCompetition
    rw [if_neg hc]
    cases world (submitCmd scid fn msg) submitTimeoutMs <;> rfl
  · unfold executeCommand
    rw [if_neg hc]
    cases sworld cmd kaggleServiceTimeoutMs <;> rfl

/-- C5 witness: the amended statement evaluated at concrete inputs for
all seven operations. -/
theorem timeouts_by_variant_witness :
    (metorialSearchDatasets ⟨"user", "key"⟩ "titanic" (fun _ _ => .ok "[]" "")
        (fun _ => .ok []) []).2 =
      [] ++ [(metorialSearchDatasetsCmd "titanic", 60000)] ∧
    (metorialSearchCompetitions ⟨"user", "key"⟩ "titanic" (fun _ _ => .ok "[]" "")
        (fun _ => .ok []) []).2 =
      [] ++ [(metorialSearchCompetitionsCmd "titanic", 60000)] ∧
    (metorialGetCompetitionDetails ⟨"user", "key"⟩ "titanic" (fun _ _ => .ok "[]" "")
        (fun _ => .ok []) []).2 =
      [] ++ [(metorialCompetitionDetailsCmd "titanic", 60000)] ∧
    (metorialDownloadDataset ⟨"user", "key"⟩ "alice/iris" none (fun _ _ => .ok "[]" "") []).2 =
      [] ++ [(metorialDownloadDatasetCmd "alice/iris"
        (resolveDatasetPath "alice/iris" none), 300000)] ∧
    ((metorialDownloadCompetition ⟨"user", "key"⟩ "titanic" none
          (fun _ _ => .ok "[]" "") []).2 =
        [] ++ [(metorialDownloadCompetitionCmd "titanic"
          (resolveCompetitionPath "titanic" none), 300000)] ∨
      (metorialDownloadCompetition ⟨"user", "key"⟩ "titanic" none
          (fun _ _ => .ok "[]" "") []).2 =
        [] ++ [(metorialDownloadCompetitionCmd "titanic"
            (resolveCompetitionPath "titanic" none), 300000),
          (enumerationCmd (resolveCompetitionPath "titanic" none), 10000)]) ∧
    (submitToCompetition ⟨"user", "key"⟩ "titanic" "id,label" "sub.csv" none
        (fun _ _ => .ok "[]" "") [] []).2.2 =
      [] ++ [(submitCmd "titanic" "sub.csv" none, 120000)] ∧
    (executeCommand ⟨"user", "key"⟩ ["kaggle", "datasets", "list"]
        (fun _ _ => .ok "" "") []).2 =
      [] ++ [(["kaggle", "datasets", "list"], 300000)] :=
  timeouts_by_variant ⟨"user", "key"⟩ "titanic" "titanic" "titanic" "alice/iris" "titanic"
    "titanic" "id,label" "sub.csv" none none none ["kaggle", "datasets", "list"]
    (fun _ _ => .ok "[]" "") (fun _ _ => .ok "" "") (fun _ => .ok []) (fun _ => .ok [])
    [] [] [] (by decide)

/-! ## Claim C6 -/

/-- C6 counterexample: a present-but-empty upstream description is not
sliced and suffixed as the claim states — it is first replaced by
"N/A" (the empty string is falsy), so the output is "N/A..." rather
than the claimed `slice(0,200) + "..."` of the upstream text. -/
theorem empty_description_not_sliced :
    (normalizeCompetition ⟨none, none, some "", none, none, none, none, none, none⟩).description =
      .vstr "N/A..." ∧
    (normalizeCompetition ⟨none, none, some "", none, none, none, none, none, none⟩).description ≠
      .vstr (jsSubstr0 "" 200 ++ "...") := by
  refine ⟨by decide, by decide⟩

/-- C6 (amended): for every competition record whose upstream
description is present and non-empty, the output description is the
first 200 characters of the upstream description with "..." appended
unconditionally — in particular a description no longer than 200
characters is returned whole, still with the appended marker.  An
empty or missing description is first replaced by "N/A". -/
theorem description_truncated_with_ellipsis (c : RawCompetition) (d : String)
    (hd : c.description = some d) (hne : d ≠ "") :
    (normalizeCompetition c).description = .vstr (jsSubstr0 d 200 ++ "...") ∧
    (d.length ≤ 200 → (normalizeCompetition c).description = .vstr (d ++ "...")) := by
  have h1 : (normalizeCompetition c).description = .vstr (jsSubstr0 d 200 ++ "...") := by
    simp [normalizeCompetition, jsOrStr, hd, hne]
  refine ⟨h1, fun hlen => ?_⟩
  have h2 : jsSubstr0 d 200 = d := by
    cases d with
    | mk data =>
      exact congrArg String.mk (List.take_of_length_le (by simpa [String.length] using hlen))
  rw [h1, h2]

/-- C6 witness: a 49-character description comes back whole with the
ellipsis marker appended. -/
theorem description_truncated_with_ellipsis_witness :
    (normalizeCompetition sampleComp).description = .vstr (sampleDescription ++ "...") :=
  (description_truncated_with_ellipsis sampleComp sampleDescription rfl (by decide)).2
    (by decide)

/-! ## Claim C7 -/

/-- C7: the dataset normalizer substitutes "N/A" for every missing
string-like field and 0 for a missing download count, and no field of
the output record is ever undefined or null. -/
theorem normalizer_missing_field_defaults (ds : RawDataset) :
    (ds.ref = none → (normalizeDataset ds).ref = .vstr "N/A") ∧
    (ds.title = none → (normalizeDataset ds).title = .vstr "N/A") ∧
    (ds.subtitle = none → (normalizeDataset ds).subtitle = .vstr "N/A") ∧
    (ds.lastUpdated = none → (normalizeDataset ds).lastUpdated = .vstr "N/A") ∧
    (ds.usabilityRating = none → (normalizeDataset ds).usabilityRating = .vstr "N/A") ∧
    (ds.downloadCount = none → (normalizeDataset ds).downloadCount = .vnum 0) ∧
    (∀ v ∈ [(normalizeDataset ds).ref, (normalizeDataset ds).title,
        (normalizeDataset ds).subtitle, (normalizeDataset ds).downloadCount,
        (normalizeDataset ds).lastUpdated, (normalizeDataset ds).usabilityRating],
      v ≠ .undef ∧ v ≠ .nullv) := by
  refine ⟨fun h => by simp [normalizeDataset, jsOrStr, h],
    fun h => by simp [normalizeDataset, jsOrStr, h],
    fun h => by simp [normalizeDataset, jsOrStr, h],
    fun h => by simp [normalizeDataset, jsOrStr, h],
    fun h => by simp [normalizeDataset, h],
    fun h => by simp [normalizeDataset, jsOrNum, h],
    ?_⟩
  intro v hv
  simp only [List.mem_cons, List.not_mem_nil, or_false] at hv
  have hur : (normalizeDataset ds).usabilityRating ≠ JsVal.undef ∧
      (normalizeDataset ds).usabilityRating ≠ JsVal.nullv := by
    simp only [normalizeDataset]
    rcases ds.usabilityRating with _ | q
    · simp
    · by_cases hq : q = 0 <;> simp [hq]
  rcases hv with h | h | h | h | h | h <;> subst h
  · exact ⟨by simp [normalizeDataset], by simp [normalizeDataset]⟩
  · exact ⟨by simp [normalizeDataset], by simp [normalizeDataset]⟩
  · exact ⟨by simp [normalizeDataset], by simp [normalizeDataset]⟩
  · exact ⟨by simp [normalizeDataset], by simp [normalizeDataset]⟩
  · exact ⟨by simp [normalizeDataset], by simp [normalizeDataset]⟩
  · exact hur

/-- C7 witness: on a record with every upstream field absent, all
string-like outputs are "N/A", the download count is 0, and the ref
field is neither undefined nor null. -/
theorem normalizer_missing_field_defaults_witness :
    (normalizeDataset sampleRawDataset).ref = .vstr "N/A" ∧
    (normalizeDataset sampleRawDataset).title = .vstr "N/A" ∧
    (normalizeDataset sampleRawDataset).subtitle = .vstr "N/A" ∧
    (normalizeDataset sampleRawDataset).lastUpdated = .vstr "N/A" ∧
    (normalizeDataset sampleRawDataset).usabilityRating = .vstr "N/A" ∧
    (normalizeDataset sampleRawDataset).downloadCount = .vnum 0 ∧
    ((normalizeDataset sampleRawDataset).ref ≠ .undef ∧
      (normalizeDataset sampleRawDataset).ref ≠ .nullv) :=
  ⟨(normalizer_missing_field_defaults sampleRawDataset).1 rfl,
   (normalizer_missing_field_defaults sampleRawDataset).2.1 rfl,
   (normalizer_missing_field_defaults sampleRawDataset).2.2.1 rfl,
   (normalizer_missing_field_defaults sampleRawDataset).2.2.2.1 rfl,
   (normalizer_missing_field_defaults sampleRawDataset).2.2.2.2.1 rfl,
   (normalizer_missing_field_defaults sampleRawDataset).2.2.2.2.2.1 rfl,
   (normalizer_missing_field_defaults sampleRawDataset).2.2.2.2.2.2
     (normalizeDataset sampleRawDataset).ref (by simp)⟩

/-! ## Claim C8 -/

/-- C8: a dataset_ref that fails the owner/name pattern is rejected by
the download tool as a validation error, with the executor never
invoked (the trace is returned unchanged); the ref "a/b" passes the
schema and "not-a-ref" fails the pattern. -/
theorem invalid_ref_rejected_before_execution (creds : Credentials) (ref : String)
    (path : Option String) (world : List String → Nat → ExecOutcome) (tr : ExecTrace)
    (h : refMatches ref = false) :
    downloadDatasetTool creds ref path world tr =
      (.validationError "Dataset reference must be in format username/dataset-name", tr) ∧
    refMatches "a/b" = true ∧ validateDatasetDownload "a/b" = true ∧
    refMatches "not-a-ref" = false := by
  refine ⟨?_, by decide, by decide, by decide⟩
  have hv : validateDatasetDownload ref = false := by
    unfold validateDatasetDownload
    rw [h]
    rfl
  unfold downloadDatasetTool
  rw [if_pos hv]

/-- C8 witness: the tool invoked on "not-a-ref" with an empty trace
returns the validation error and leaves the trace empty. -/
theorem invalid_ref_rejected_before_execution_witness :
    downloadDatasetTool ⟨"user", "key"⟩ "not-a-ref" none (fun _ _ => .ok "" "") [] =
      (.validationError "Dataset reference must be in format username/dataset-name", []) ∧
    refMatches "a/b" = true ∧ validateDatasetDownload "a/b" = true ∧
    refMatches "not-a-ref" = false :=
  invalid_ref_rejected_before_execution ⟨"user", "key"⟩ "not-a-ref" none
    (fun _ _ => .ok "" "") [] (by decide)

/-! ## Claim C9 -/

/-- C9 counterexample: a caller-supplied empty-string download path is
not used as given — JavaScript `path || default` treats it as falsy, so
both resolvers fall back to the derived default path instead. -/
theorem empty_supplied_path_ignored :
    resolveDatasetPath "alice/iris" (some "") = "./datasets/iris" ∧
    resolveDatasetPath "alice/iris" (some "") ≠ "" ∧
    resolveCompetitionPath "titanic" (some "") = "./competitions/titanic" ∧
    resolveCompetitionPath "titanic" (some "") ≠ "" := by
  refine ⟨by decide, by decide, by decide, by decide⟩

/-- C9 (amended): with no caller-supplied path the effective target is
./datasets/<name-part-of-ref> for datasets (so "alice/iris" yields
./datasets/iris) and ./competitions/<competition_id> for competitions;
a supplied non-empty path is used as given, while a supplied empty
string falls back to the same defaults. -/
theorem download_path_resolution (ref id p : String) (hp : p ≠ "") :
    resolveDatasetPath ref none = "./datasets/" ++ refNamePart ref ∧
    resolveCompetitionPath id none = "./competitions/" ++ id ∧
    resolveDatasetPath ref (some p) = p ∧
    resolveCompetitionPath id (some p) = p ∧
    resolveDatasetPath "alice/iris" none = "./datasets/iris" ∧
    resolveDatasetPath ref (some "") = "./datasets/" ++ refNamePart ref ∧
    resolveCompetitionPath id (some "") = "./competitions/" ++ id := by
  refine ⟨rfl, rfl, ?_, ?_, by decide, rfl, rfl⟩ <;>
    simp [resolveDatasetPath, resolveCompetitionPath, jsOrStr, hp]

/-- C9 witness: the amended statement evaluated at ref "alice/iris",
competition "titanic" and the supplied path "/data/custom". -/
theorem download_path_resolution_witness :
    resolveDatasetPath "alice/iris" none = "./datasets/" ++ refNamePart "alice/iris" ∧
    resolveCompetitionPath "titanic" none = "./competitions/" ++ "titanic" ∧
    resolveDatasetPath "alice/iris" (some "/data/custom") = "/data/custom" ∧
    resolveCompetitionPath "titanic" (some "/data/custom") = "/data/custom" ∧
    resolveDatasetPath "alice/iris" none = "./datasets/iris" ∧
    resolveDatasetPath "alice/iris" (some "") = "./datasets/" ++ refNamePart "alice/iris" ∧
    resolveCompetitionPath "titanic" (some "") = "./competitions/" ++ "titanic" :=
  download_path_resolution "alice/iris" "titanic" "/data/custom" (by decide)

/-! ## Claim C10 -/

/-- C10: the `||` substitution fires on every falsy present value, not
only on missing fields — a usability rating of 0 and an empty title
are both replaced by "N/A", and the resulting record is literally
identical to the one produced from an absent field, so the two are
indistinguishable at the interface. -/
theorem falsy_fields_substituted (ds : RawDataset) (c : RawCompetition) :
    (ds.usabilityRating = some 0 → (normalizeDataset ds).usabilityRating = .vstr "N/A") ∧
    (ds.title = some "" → (normalizeDataset ds).title = .vstr "N/A") ∧
    normalizeDataset { ds with usabilityRating := some 0 } =
      normalizeDataset { ds with usabilityRating := none } ∧
    normalizeDataset { ds with title := some "" } =
      normalizeDataset { ds with title := none } ∧
    (c.title = some "" → (normalizeCompetition c).title = .vstr "N/A") := by
  refine ⟨fun h => by simp [normalizeDataset, h],
    fun h => by simp [normalizeDataset, jsOrStr, h],
    by simp [normalizeDataset],
    by simp [normalizeDataset, jsOrStr],
    fun h => by simp [normalizeCompetition, jsOrStr, h]⟩

/-- C10 witness: a record with title "" and usability rating 0 comes
back with both fields set to "N/A". -/
theorem falsy_fields_substituted_witness :
    (normalizeDataset sampleFalsyDataset).usabilityRating = .vstr "N/A" ∧
    (normalizeDataset sampleFalsyDataset).title = .vstr "N/A" :=
  ⟨(falsy_fields_substituted sampleFalsyDataset sampleRawCompetition).1 rfl,
   (falsy_fields_substituted sampleFalsyDataset sampleRawCompetition).2.1 rfl⟩

end Kaggle
